import Mathlib

/-!
Verification of the mehfil event-aggregation pipeline.

Shallow embedding of the Python sources:
  `src/scrapers/base.py`, `src/scrapers/boston_calendar.py`, `src/notion_db.py`,
  `src/geocode_events.py`, `src/send_imessage.py`.
Machine integers are modelled as `Nat`/`Int`, Python floats as `Rat` (the code
only sums, averages and compares them), Python strings as `String`/`List Char`,
raised exceptions as `Option`, and external calls as oracle functions.
-/

/-! ### Generic string helpers (Python `in`, `.lower()`, `.strip()`) -/

/-- Python `haystack.startswith(needle)` on char lists. -/
def startsWith : List Char → List Char → Bool
  | [], _ => true
  | _ :: _, [] => false
  | a :: as_, b :: bs => a == b && startsWith as_ bs

/-- Python substring test `needle in haystack` on char lists. -/
def containsSub (needle : List Char) : List Char → Bool
  | [] => startsWith needle []
  | c :: cs => startsWith needle (c :: cs) || containsSub needle cs

/-- Python `str.lower()`; the sources only rely on ASCII lowering. -/
def lowerChars (cs : List Char) : List Char := cs.map Char.toLower

/-- Whitespace characters recognised by Python `str.strip()` (ASCII part). -/
def isPySpace (c : Char) : Bool :=
  c == ' ' || c == '\t' || c == '\n' || c == '\r' || c == '\x0b' || c == '\x0c'

/-- Python `str.strip()` on char lists. -/
def pyStrip (cs : List Char) : List Char :=
  ((cs.dropWhile isPySpace).reverse.dropWhile isPySpace).reverse

/-! ### Dates and datetimes (`datetime.date`, `datetime.datetime`) -/

/-- A calendar date, as produced by Python `datetime.date()`. -/
structure PDate where
  year : Nat
  month : Nat
  day : Nat
deriving DecidableEq, Repr

/-- Python `date <= date` comparison (lexicographic). -/
def PDate.le (a b : PDate) : Bool :=
  decide (a.year < b.year) ||
    (decide (a.year = b.year) && (decide (a.month < b.month) ||
      (decide (a.month = b.month) && decide (a.day ≤ b.day))))

/-- A naive Python `datetime.datetime` value. -/
structure DateTime where
  year : Nat
  month : Nat
  day : Nat
  hour : Nat
  minute : Nat
  second : Nat
deriving DecidableEq, Repr

/-- Python `datetime < datetime` comparison (lexicographic). -/
def DateTime.lt (a b : DateTime) : Bool :=
  decide (a.year < b.year) || (decide (a.year = b.year) &&
    (decide (a.month < b.month) || (decide (a.month = b.month) &&
      (decide (a.day < b.day) || (decide (a.day = b.day) &&
        (decide (a.hour < b.hour) || (decide (a.hour = b.hour) &&
          (decide (a.minute < b.minute) || (decide (a.minute = b.minute) &&
            decide (a.second < b.second))))))))))

/-- Python `datetime.date()`. -/
def DateTime.toDate (a : DateTime) : PDate := ⟨a.year, a.month, a.day⟩

/-- Leap-year rule used by Python's `datetime` module. -/
def isLeap (y : Nat) : Bool :=
  (decide (y % 4 = 0) && decide (y % 100 ≠ 0)) || decide (y % 400 = 0)

/-- Days in a month, as validated by the `datetime` constructor. -/
def daysInMonth (y m : Nat) : Nat :=
  if m = 2 then (if isLeap y then 29 else 28)
  else if m = 4 ∨ m = 6 ∨ m = 9 ∨ m = 11 then 30
  else 31

/-- The `datetime` constructor's validity check (`MINYEAR = 1`). -/
def validYMD (y m d : Nat) : Bool :=
  decide (1 ≤ y) && decide (y ≤ 9999) && decide (1 ≤ m) && decide (m ≤ 12) &&
    decide (1 ≤ d) && decide (d ≤ daysInMonth y m)

/-! ### `datetime.strptime` for the format directives the sources use

`boston_calendar.py` parses with `%A`, `%a`, `%B`, `%b`, `%d`, `%Y` plus the
literals `","` and `" "`; `notion_db.py` additionally needs `"%Y-%m-%d"`.
Python compiles each directive to a regex fragment (case-insensitive, with
`\s+` for literal whitespace) and requires the whole string to be consumed. -/

/-- One `strptime` format directive. -/
inductive Fmt where
  | wdayFull   -- %A
  | wdayAbbr   -- %a
  | monFull    -- %B
  | monAbbr    -- %b
  | dayNum     -- %d : regex 3[01]|[12]\d|0[1-9]|[1-9]
  | monNum     -- %m : regex 1[0-2]|0[1-9]|[1-9]
  | year4      -- %Y : regex \d\d\d\d
  | comma      -- literal ","
  | dash       -- literal "-"
  | ws         -- literal whitespace, regex \s+
deriving DecidableEq, Repr

/-- Full weekday names (locale C), lowercase. The parsed weekday is unused. -/
def weekdayFulls : List String :=
  ["monday", "tuesday", "wednesday", "thursday", "friday", "saturday", "sunday"]

/-- Abbreviated weekday names, lowercase. -/
def weekdayAbbrevs : List String :=
  ["mon", "tue", "wed", "thu", "fri", "sat", "sun"]

/-- Full month names with month numbers, lowercase. -/
def monthFulls : List (String × Nat) :=
  [("january", 1), ("february", 2), ("march", 3), ("april", 4), ("may", 5),
   ("june", 6), ("july", 7), ("august", 8), ("september", 9), ("october", 10),
   ("november", 11), ("december", 12)]

/-- Abbreviated month names with month numbers, lowercase. -/
def monthAbbrevs : List (String × Nat) :=
  [("jan", 1), ("feb", 2), ("mar", 3), ("apr", 4), ("may", 5), ("jun", 6),
   ("jul", 7), ("aug", 8), ("sep", 9), ("oct", 10), ("nov", 11), ("dec", 12)]

/-- Case-insensitively consume a lowercase pattern from the front of `cs`.
None of the name lists above has one entry that is a prefix of another, so
matching the first fitting candidate models the regex alternation exactly. -/
def dropCI : List Char → List Char → Option (List Char)
  | [], cs => some cs
  | _ :: _, [] => none
  | p :: ps, c :: cs => if p == c.toLower then dropCI ps cs else none

/-- Fields collected while matching a format. -/
structure DParts where
  year : Option Nat := none
  month : Option Nat := none
  day : Option Nat := none
deriving DecidableEq, Repr

/-- Digit value of an ASCII digit character. -/
def digitVal (c : Char) : Nat := c.toNat - 48

/-- Match a format token list against the characters, requiring the whole
input to be consumed (Python raises unless `found.end()` is the length).
The two-digit alternatives of `%d`/`%m` are tried before the one-digit one,
with backtracking, mirroring the regex alternation order. -/
def runFmt : List Fmt → List Char → DParts → Option DParts
  | [], [], st => some st
  | [], _ :: _, _ => none
  | .comma :: fs, cs, st =>
    match cs with
    | ',' :: cs' => runFmt fs cs' st
    | _ => none
  | .dash :: fs, cs, st =>
    match cs with
    | '-' :: cs' => runFmt fs cs' st
    | _ => none
  | .ws :: fs, cs, st =>
    match cs with
    | c :: cs' => if isPySpace c then runFmt fs (cs'.dropWhile isPySpace) st else none
    | [] => none
  | .wdayFull :: fs, cs, st =>
    weekdayFulls.findSome? (fun w => (dropCI w.toList cs).bind (fun cs' => runFmt fs cs' st))
  | .wdayAbbr :: fs, cs, st =>
    weekdayAbbrevs.findSome? (fun w => (dropCI w.toList cs).bind (fun cs' => runFmt fs cs' st))
  | .monFull :: fs, cs, st =>
    monthFulls.findSome? (fun p =>
      (dropCI p.1.toList cs).bind (fun cs' => runFmt fs cs' {st with month := some p.2}))
  | .monAbbr :: fs, cs, st =>
    monthAbbrevs.findSome? (fun p =>
      (dropCI p.1.toList cs).bind (fun cs' => runFmt fs cs' {st with month := some p.2}))
  | .year4 :: fs, cs, st =>
    match cs with
    | a :: b :: c :: d :: cs' =>
      if a.isDigit && b.isDigit && c.isDigit && d.isDigit then
        runFmt fs cs'
          {st with year := some (((digitVal a * 10 + digitVal b) * 10 + digitVal c) * 10 + digitVal d)}
      else none
    | _ => none
  | .dayNum :: fs, cs, st =>
    (match cs with
     | a :: b :: cs' =>
       if (a == '3' && (b == '0' || b == '1')) ||
          ((a == '1' || a == '2') && b.isDigit) ||
          (a == '0' && ('1' ≤ b && b ≤ '9')) then
         runFmt fs cs' {st with day := some (digitVal a * 10 + digitVal b)}
       else none
     | _ => none) <|>
    (match cs with
     | a :: cs' =>
       if '1' ≤ a && a ≤ '9' then runFmt fs cs' {st with day := some (digitVal a)} else none
     | [] => none)
  | .monNum :: fs, cs, st =>
    (match cs with
     | a :: b :: cs' =>
       if (a == '1' && (b == '0' || b == '1' || b == '2')) ||
          (a == '0' && ('1' ≤ b && b ≤ '9')) then
         runFmt fs cs' {st with month := some (digitVal a * 10 + digitVal b)}
       else none
     | _ => none) <|>
    (match cs with
     | a :: cs' =>
       if '1' ≤ a && a ≤ '9' then runFmt fs cs' {st with month := some (digitVal a)} else none
     | [] => none)

/-- `datetime.strptime(s, fmt)` restricted to the directives above: match the
format, default the year to the sentinel 1900, and validate the date as the
`datetime` constructor does.  A `ValueError` is `none`. -/
def strptimeF (fmt : List Fmt) (cs : List Char) : Option DateTime :=
  match runFmt fmt cs {} with
  | none => none
  | some st =>
    match st.month, st.day with
    | some m, some d =>
      let y := st.year.getD 1900
      if validYMD y m d then some ⟨y, m, d, 0, 0, 0⟩ else none
    | _, _ => none

/-! ### `boston_calendar.py` — `_parse_date_time` -/

namespace BCal

/-- Match the time regex `(\d{1,2}:\d{2})([ap]m?)` (case-insensitive) at the
head of `cs`, returning the `H:MM` group, the lowered first char of the
`[ap]m?` group, and the unconsumed suffix.  The greedy `\d{1,2}` tries two
digits first and backtracks to one, exactly as the regex engine does. -/
def tryTime (cs : List Char) : Option (List Char × Char × List Char) :=
  let ampm : List Char → List Char → Option (List Char × Char × List Char) :=
    fun hm r =>
      match r with
      | e :: r' =>
        if e.toLower == 'a' || e.toLower == 'p' then
          match r' with
          | m :: r'' =>
            if m.toLower == 'm' then some (hm, e.toLower, r'') else some (hm, e.toLower, r')
          | [] => some (hm, e.toLower, r')
        else none
      | [] => none
  match cs with
  | d1 :: rest =>
    if d1.isDigit then
      (match rest with
       | d2 :: ':' :: m1 :: m2 :: r =>
         if d2.isDigit && m1.isDigit && m2.isDigit then
           ampm [d1, d2, ':', m1, m2] r
         else none
       | _ => none) <|>
      (match rest with
       | ':' :: m1 :: m2 :: r =>
         if m1.isDigit && m2.isDigit then ampm [d1, ':', m1, m2] r else none
       | _ => none)
    else none
  | [] => none

/-- `re.search`: leftmost match of the time pattern, returning the `H:MM`
group and the lowered am/pm marker. -/
def searchTime : List Char → Option (List Char × Char)
  | [] => none
  | c :: cs =>
    match tryTime (c :: cs) with
    | some (hm, ap, _) => some (hm, ap)
    | none => searchTime cs

/-- `re.sub(r'\d{1,2}:\d{2}[ap]m?', '', ·)`: drop every non-overlapping match,
fuelled by the input length (each match consumes at least one character, so
the fuel never runs out on the recursive calls). -/
def removeTimesF : Nat → List Char → List Char
  | 0, cs => cs
  | _ + 1, [] => []
  | f + 1, c :: cs =>
    match tryTime (c :: cs) with
    | some (_, _, rest) => removeTimesF f rest
    | none => c :: removeTimesF f cs

/-- The time-pattern removal applied with sufficient fuel. -/
def removeTimes (cs : List Char) : List Char := removeTimesF cs.length cs

/-- The ordered date-format list of `_parse_date_time`. -/
def bcFormats : List (List Fmt) :=
  [[.wdayFull, .comma, .ws, .monAbbr, .ws, .dayNum, .comma, .ws, .year4],  -- %A, %b %d, %Y
   [.wdayFull, .comma, .ws, .monFull, .ws, .dayNum, .comma, .ws, .year4],  -- %A, %B %d, %Y
   [.wdayAbbr, .comma, .ws, .monAbbr, .ws, .dayNum, .comma, .ws, .year4],  -- %a, %b %d, %Y
   [.monFull, .ws, .dayNum, .comma, .ws, .year4],                          -- %B %d, %Y
   [.monAbbr, .ws, .dayNum, .comma, .ws, .year4],                          -- %b %d, %Y
   [.wdayFull, .comma, .ws, .monAbbr, .ws, .dayNum],                       -- %A, %b %d
   [.wdayAbbr, .comma, .ws, .monAbbr, .ws, .dayNum]]                       -- %a, %b %d

/-- The `for fmt in formats` loop: first format that parses wins.  The loop
strips `date_only` again before each attempt; `pyStrip` is idempotent, so the
caller's single strip gives the same characters. -/
def bcParse (cs : List Char) : Option DateTime :=
  bcFormats.findSome? (fun f => strptimeF f cs)

/-- `_parse_date_time(date_text)` from `boston_calendar.py`, with the calls to
`datetime.now()` replaced by the single parameter `now` (the real calls are
microseconds apart within one invocation).  Returns the parsed datetime and
the extracted display time.  The year replacements cannot produce an invalid
date: a Feb 29 cannot parse under the sentinel year 1900 (not a leap year).
On total parse failure the function returns `now` itself. -/
def parse_date_time (now : DateTime) (date_text : String) : DateTime × Option String :=
  let time_str : Option String :=
    match searchTime date_text.toList with
    | some (hm, ap) => some (String.mk hm ++ (if ap == 'p' then " PM" else " AM"))
    | none => none
  let date_only := pyStrip (removeTimes date_text.toList)
  match bcParse date_only with
  | some parsed =>
    if parsed.year = 1900 then
      let p1 : DateTime := {parsed with year := now.year}
      if DateTime.lt p1 now then ({p1 with year := now.year + 1}, time_str)
      else (p1, time_str)
    else (parsed, time_str)
  | none => (now, time_str)

end BCal

/-! ### `scrapers/base.py` — keyword lists and the canonical `Event` -/

/-- `SOUTH_ASIAN_KEYWORDS` from `scrapers/base.py`. -/
def SOUTH_ASIAN_KEYWORDS : List String :=
  ["south asian", "indian", "pakistani", "bengali", "desi", "nepali", "sri lankan",
   "bangladeshi", "afghan", "tamil", "punjabi", "gujarati", "marathi", "telugu",
   "bollywood", "bhangra", "garba", "dandiya", "kathak", "bharatanatyam",
   "holi", "diwali", "navratri", "durga puja", "ganesh", "onam", "pongal", "baisakhi",
   "biryani", "samosa", "chai", "tandoori", "naan", "curry", "masala", "thali",
   "mehndi", "henna", "rangoli", "sari", "saree", "kurta", "salwar",
   "cricket", "kabaddi", "carrom"]

/-- `MIDDLE_EASTERN_KEYWORDS` from `scrapers/base.py`. -/
def MIDDLE_EASTERN_KEYWORDS : List String :=
  ["middle eastern", "arab", "persian", "iranian", "lebanese", "syrian", "palestinian",
   "egyptian", "moroccan", "turkish", "afghan", "iraqi", "jordanian", "yemeni",
   "eid", "ramadan", "iftar", "nowruz", "norooz",
   "mosque", "masjid", "islamic", "muslim",
   "halal", "falafel", "hummus", "shawarma", "kebab", "kabob", "baklava", "tahini",
   "belly dance", "dabke", "oud", "arabic music",
   "hookah", "shisha", "arabic calligraphy"]

/-- `CATEGORY_KEYWORDS` from `scrapers/base.py`, in dict insertion order.
The fifth Coffee & Chai keyword is the source's literal mojibake bytes. -/
def CATEGORY_KEYWORDS : List (String × List String) :=
  [("Arts & Crafts", ["art", "craft", "painting", "pottery", "calligraphy", "drawing", "sculpture", "gallery", "exhibition", "workshop"]),
   ("Food & Markets", ["food", "cuisine", "cooking", "restaurant", "market", "bazaar", "tasting", "culinary", "chef", "dining"]),
   ("Theater & Film", ["theater", "theatre", "film", "movie", "cinema", "play", "drama", "screening", "documentary"]),
   ("Comedy", ["comedy", "standup", "stand-up", "comedian", "improv", "open mic", "laugh"]),
   ("Coffee & Chai", ["coffee", "chai", "tea", "cafe", "cafÃ©", "coffeehouse"]),
   ("Sports & Outdoors", ["sports", "cricket", "soccer", "basketball", "hiking", "outdoor", "fitness", "yoga", "run", "marathon", "kabaddi"]),
   ("Music & Dance", ["music", "dance", "concert", "performance", "dj", "live music", "recital", "bhangra", "bollywood", "classical", "qawwali"]),
   ("Talks & Lectures", ["talk", "lecture", "seminar", "discussion", "panel", "speaker", "conversation", "symposium", "conference", "ama", "fireside"]),
   ("Cultural Festival", ["festival", "mela", "celebration", "holi", "diwali", "eid", "navratri", "nowruz", "cultural"]),
   ("Religious", ["religious", "spiritual", "prayer", "temple", "mosque", "church", "meditation", "puja", "namaz"]),
   ("Career & Tech", ["career", "professional", "intern", "startup", "entrepreneur", "tech", "coding", "aws", "cloud", "ai", "machine learning", "job", "hiring", "resume"]),
   ("Community", ["community", "meetup", "networking", "social", "gathering"])]

/-- The `Event` dataclass from `scrapers/base.py`. -/
structure Event where
  name : String
  date : DateTime
  url : String
  source : String
  location : Option String := none
  address : Option String := none
  time : Option String := none
  price : Option String := none
  description : Option String := none
  category : Option (List String) := none
  latitude : Option Rat := none
  longitude : Option Rat := none
deriving DecidableEq, Repr

namespace BCal

/-- Does any keyword of `kws` occur as a substring of `text`
(Python `any(kw in text for kw in kws)`)? -/
def anyKeyword (kws : List String) (text : List Char) : Bool :=
  kws.any (fun kw => containsSub kw.toList text)

/-- `_categorize(name, description)` from `boston_calendar.py`:
lowercased `f"{name} {description or ''}"`, the two ethnicity lists, then the
category keyword map in order; `["Community"]` when nothing matched. -/
def categorize (name : String) (description : Option String) : List String :=
  let text := lowerChars (name.toList ++ ' ' :: (description.getD "").toList)
  let cats0 : List String := if anyKeyword SOUTH_ASIAN_KEYWORDS text then ["South Asian"] else []
  let cats1 := if anyKeyword MIDDLE_EASTERN_KEYWORDS text then cats0 ++ ["Middle Eastern"] else cats0
  let cats2 := CATEGORY_KEYWORDS.foldl
    (fun cats p =>
      if anyKeyword p.2 text then (if p.1 ∈ cats then cats else cats ++ [p.1]) else cats)
    cats1
  if cats2 = [] then ["Community"] else cats2

end BCal

/-! ### `notion_db.py` — duplicate-skipping push and cleanup

The Notion database is modelled as the list of events whose pages were
created (`pages.create` stores the `URL` property as the event's url string);
a failing create/archive call is an oracle returning `false`. -/

namespace NotionDb

/-- Python `set.add` on a list kept duplicate-free in insertion order. -/
def addUrl (urls : List String) (u : String) : List String :=
  if u ∈ urls then urls else urls ++ [u]

/-- `get_existing_urls`: collect the `URL` property of every page, skipping
falsy values (`if url_prop.get("url")` — an empty url string is skipped). -/
def get_existing_urls (store : List Event) : List String :=
  store.foldl (fun acc e => if e.url = "" then acc else addUrl acc e.url) []

/-- Loop state of `add_events`: the database contents, the in-memory
`existing_urls` set and the three counters. -/
structure AddState where
  store : List Event
  existing_urls : List String
  added : Nat
  skipped : Nat
  errors : Nat
deriving DecidableEq, Repr

/-- One iteration of the `for event in events` loop of `add_events`:
skip a url already seen, otherwise try to create the page (`ok` says whether
`add_event` succeeds) and only on success record the url as seen. -/
def add_events_step (ok : Event → Bool) (st : AddState) (e : Event) : AddState :=
  if e.url ∈ st.existing_urls then
    {st with skipped := st.skipped + 1}
  else if ok e then
    {st with store := st.store ++ [e], added := st.added + 1,
             existing_urls := addUrl st.existing_urls e.url}
  else
    {st with errors := st.errors + 1}

/-- `add_events(events, skip_duplicates)` against a store: seed the seen set
from `get_existing_urls` (or empty), then run the loop. -/
def add_events (ok : Event → Bool) (store : List Event) (skip_duplicates : Bool)
    (events : List Event) : AddState :=
  events.foldl (add_events_step ok)
    ⟨store, if skip_duplicates then get_existing_urls store else [], 0, 0, 0⟩

/-- A page returned by the cleanup pass's before-today query: its id and the
optional `end` field of the `Date` property, as a raw string. -/
structure NPage where
  id : String
  endStr : Option String
deriving DecidableEq, Repr

/-- `datetime.strptime(end_date_str[:10], "%Y-%m-%d").date()`. -/
def parseISO (s : String) : Option PDate :=
  (strptimeF [.year4, .dash, .monNum, .dash, .dayNum] ((s.take 10).toList)).map DateTime.toDate

/-- Result counters of `cleanup_past_events`, plus the archived page ids. -/
structure CleanupState where
  deleted : Nat
  kept : Nat
  errors : Nat
  archivedIds : List String
deriving DecidableEq, Repr

/-- One iteration of the cleanup loop: a page with an end date `≥ today` is
kept as ongoing; otherwise the page is archived (`ok` says whether the
`pages.update(archived=True)` call succeeds; a failure only counts an error).
An end string that does not parse raises an uncaught `ValueError` (`none`). -/
def cleanup_step (today : PDate) (ok : NPage → Bool) (st : CleanupState) (p : NPage) :
    Option CleanupState :=
  let archive : CleanupState :=
    if ok p then
      {st with deleted := st.deleted + 1, archivedIds := st.archivedIds ++ [p.id]}
    else
      {st with errors := st.errors + 1}
  match p.endStr with
  | some s =>
    match parseISO s with
    | none => none
    | some endDate =>
      if PDate.le today endDate then some {st with kept := st.kept + 1}
      else some archive
  | none => some archive

/-- `cleanup_past_events` over the pages returned by the before-today query. -/
def cleanup_past_events (today : PDate) (ok : NPage → Bool) (pages : List NPage) :
    Option CleanupState :=
  pages.foldl (fun acc p => acc.bind (fun st => cleanup_step today ok st p)) (some ⟨0, 0, 0, []⟩)

end NotionDb

/-! ### `geocode_events.py` — venue table, geocoder, enrichment pass

The Nominatim call is an oracle `ext : String → Option (Rat × Rat)`:
`none` models both a raised exception and an empty result list, `some`
the first result's coordinates. -/

namespace Geo

/-- `KNOWN_VENUES`, in dict insertion order (first substring match wins). -/
def KNOWN_VENUES : List (String × Rat × Rat) :=
  [("boston", 42.3601, -71.0589),
   ("cambridge", 42.3736, -71.1097),
   ("somerville", 42.3876, -71.0995),
   ("brookline", 42.3318, -71.1212),
   ("boston, ma", 42.3601, -71.0589),
   ("cambridge, ma", 42.3736, -71.1097),
   ("mit", 42.3601, -71.0942),
   ("harvard", 42.3770, -71.1167),
   ("boston university", 42.3505, -71.1054),
   ("northeastern", 42.3398, -71.0892),
   ("faneuil hall", 42.3601, -71.0549),
   ("boston common", 42.3550, -71.0656),
   ("seaport", 42.3519, -71.0449),
   ("back bay", 42.3503, -71.0810),
   ("south end", 42.3420, -71.0692),
   ("north end", 42.3647, -71.0542),
   ("downtown crossing", 42.3555, -71.0602),
   ("beacon hill", 42.3588, -71.0707),
   ("fenway", 42.3467, -71.0972),
   ("allston", 42.3539, -71.1337),
   ("brighton", 42.3464, -71.1627),
   ("jamaica plain", 42.3097, -71.1151),
   ("roxbury", 42.3152, -71.0886),
   ("dorchester", 42.3016, -71.0674),
   ("isbcc", 42.3307, -71.0834),
   ("islamic society of boston", 42.3307, -71.0834),
   ("encore boston harbor", 42.3876, -71.0756),
   ("memoire", 42.3876, -71.0756)]

/-- The `for venue, coords in KNOWN_VENUES.items()` loop. -/
def venueLookup (locationLower : List Char) : Option (Rat × Rat) :=
  KNOWN_VENUES.findSome? (fun v =>
    if containsSub v.1.toList locationLower then some (v.2.1, v.2.2) else none)

/-- `geocode_location(location)`: empty text yields `(None, None)`; then the
known-venue table; then the Nominatim oracle; then the Boston-center default. -/
def geocode_location (ext : String → Option (Rat × Rat)) (location : String) :
    Option Rat × Option Rat :=
  if location = "" then (none, none)
  else
    match venueLookup (lowerChars location.toList) with
    | some (la, lo) => (some la, some lo)
    | none =>
      match ext location with
      | some (la, lo) => (some la, some lo)
      | none => (some 42.3601, some (-71.0589))

/-- An element of the `events` array of `dashboard/events.json`, restricted to
the fields `geocode_events` touches. -/
structure GEvent where
  name : String
  latitude : Option Rat := none
  longitude : Option Rat := none
  location : Option String := none
  address : Option String := none
deriving DecidableEq, Repr

/-- Python truthiness of an optional string (`None` and `""` are falsy). -/
def truthyStr : Option String → Option String
  | some s => if s = "" then none else some s
  | none => none

/-- Python truthiness of an optional float (`None` and `0.0` are falsy). -/
def truthyRat (r : Option Rat) : Bool :=
  match r with
  | some v => decide (v ≠ 0)
  | none => false

/-- The per-event body of `geocode_events`: events whose coordinates are
falsy get `geocode_location(location or address or "Boston")`, and the
fields are set only when both returned coordinates are truthy. -/
def geocode_event (ext : String → Option (Rat × Rat)) (e : GEvent) : GEvent :=
  if !truthyRat e.latitude || !truthyRat e.longitude then
    let location := ((truthyStr e.location).getD ((truthyStr e.address).getD "Boston"))
    match geocode_location ext location with
    | (some la, some lo) =>
      if la ≠ 0 ∧ lo ≠ 0 then {e with latitude := some la, longitude := some lo} else e
    | _ => e
  else e

/-- `geocode_events` over the events array (the JSON file round-trip and the
rate-limiting sleep carry no data). -/
def geocode_events (ext : String → Option (Rat × Rat)) (events : List GEvent) : List GEvent :=
  events.map (geocode_event ext)

end Geo

/-! ### `send_imessage.py` — weather analysis, indoor classification, scoring, sort -/

namespace Msg

/-- `HEAT_THRESHOLD` (°C). -/
def HEAT_THRESHOLD : Rat := 35
/-- `FREEZING_THRESHOLD` (°C). -/
def FREEZING_THRESHOLD : Rat := -5
/-- `SNOW_THRESHOLD` (cm). -/
def SNOW_THRESHOLD : Rat := 2
/-- `RAIN_THRESHOLD` (mm). -/
def RAIN_THRESHOLD : Rat := 15

/-- `INDOOR_CATEGORIES`. -/
def INDOOR_CATEGORIES : List String :=
  ["Arts & Crafts", "Theater & Film", "Food & Markets", "Comedy",
   "Coffee & Chai", "Talks & Lectures", "Career & Tech", "Religious"]

/-- `OUTDOOR_CATEGORIES`. -/
def OUTDOOR_CATEGORIES : List String :=
  ["Sports & Outdoors", "Cultural Festival"]

/-- The `daily` block of an Open-Meteo 7-day forecast response. -/
structure Weather where
  time : List String
  temperature_2m_max : List Rat
  temperature_2m_min : List Rat
  precipitation_sum : List Rat
  snowfall_sum : List Rat
  weather_code : List Int
deriving DecidableEq, Repr

/-- Sum of a list of rationals (Python `sum`). -/
def ratSum (l : List Rat) : Rat := l.foldl (· + ·) 0

/-- `analyze_weather(weather_data)` restricted to its condition and emoji
components (the third component is a display note built from the same tests).
`none` models a falsy `weather_data` (fetch failure or missing `daily`). -/
def analyze_weather (weather_data : Option Weather) : String × String :=
  match weather_data with
  | none => ("unknown", "📅")
  | some w =>
    let total_rain : Rat := if w.precipitation_sum = [] then 0 else ratSum w.precipitation_sum
    let total_snow : Rat := if w.snowfall_sum = [] then 0 else ratSum w.snowfall_sum
    let avg_high : Rat :=
      if w.temperature_2m_max = [] then 10
      else ratSum w.temperature_2m_max / w.temperature_2m_max.length
    let avg_low : Rat :=
      if w.temperature_2m_min = [] then 0
      else ratSum w.temperature_2m_min / w.temperature_2m_min.length
    let snow_days := (w.snowfall_sum.filter (fun s => 0 < s)).length
    let bad_weather_days :=
      (w.weather_code.filter (fun c => (71 ≤ c ∧ c ≤ 77) ∨ (51 ≤ c ∧ c ≤ 67))).length
    if SNOW_THRESHOLD ≤ total_snow ∨ 2 ≤ snow_days then ("snow", "❄️")
    else if avg_low ≤ FREEZING_THRESHOLD then ("freezing", "🥶")
    else if RAIN_THRESHOLD ≤ total_rain then ("rainy", "🌧️")
    else if HEAT_THRESHOLD ≤ avg_high then ("heat", "🔥")
    else if 3 ≤ bad_weather_days then ("mixed", "🌦️")
    else ("nice", "☀️")

/-- An element of the events array as `load_events` consumes it, restricted
to the fields the filtering/scoring/sorting steps touch.  `is_indoor` is the
key `load_events` sets to `is_indoor_event(e)` before scoring. -/
structure MsgEvent where
  name : String
  date : String
  time : Option String := none
  location : String := ""
  price : Option String := none
  categories : List String := []
  is_indoor : Bool := true
deriving DecidableEq, Repr

/-- The category loop of `is_indoor_event`: the first category found in
either static table decides. -/
def catLoop : List String → Option Bool
  | [] => none
  | c :: cs =>
    if c ∈ INDOOR_CATEGORIES then some true
    else if c ∈ OUTDOOR_CATEGORIES then some false
    else catLoop cs

/-- `indoor_hints`. -/
def INDOOR_HINTS : List String :=
  ["museum", "gallery", "restaurant", "theater", "theatre", "cinema",
   "studio", "lounge", "cafe", "coffee", "library", "center", "centre",
   "hall", "room", "hotel", "bar", "club", "temple", "mosque", "church"]

/-- `outdoor_hints`. -/
def OUTDOOR_HINTS : List String :=
  ["park", "beach", "trail", "hike", "outdoor", "garden", "field",
   "plaza", "street", "marathon", "run", "walk"]

/-- `is_indoor_event(event)`: category tables first, then outdoor hints,
then indoor hints, defaulting to indoor. -/
def is_indoor_event (e : MsgEvent) : Bool :=
  match catLoop e.categories with
  | some b => b
  | none =>
    let text := lowerChars e.name.toList ++ ' ' :: lowerChars e.location.toList
    if OUTDOOR_HINTS.any (fun h => containsSub h.toList text) then false
    else if INDOOR_HINTS.any (fun h => containsSub h.toList text) then true
    else true

/-- `prefer_indoor = weather_condition in ["snow", "rainy", "heat", "freezing", "mixed"]`. -/
def prefer_indoor (weather_condition : String) : Bool :=
  weather_condition ∈ ["snow", "rainy", "heat", "freezing", "mixed"]

/-- Python truthiness of the optional `time` display string. -/
def truthyTime : Option String → Bool
  | some s => decide (s ≠ "")
  | none => false

/-- `score_event(e)` from `load_events`, with the enclosing `prefer_indoor`
flag passed explicitly; the running `score` accumulations are inlined. -/
def score_event (pi_ : Bool) (e : MsgEvent) : Nat :=
  let s1 : Nat := if "South Asian" ∈ e.categories then 100 else 0
  let s2 := if "Middle Eastern" ∈ e.categories then s1 + 100 else s1
  let s3 := if "Cultural Festival" ∈ e.categories then s2 + 50 else s2
  let s4 := if "Music & Dance" ∈ e.categories then s3 + 40 else s3
  let s5 := if "Food & Markets" ∈ e.categories then s4 + 40 else s4
  let s6 := if containsSub "free".toList (lowerChars (e.price.getD "").toList) then s5 + 30 else s5
  let s7 := if pi_ && e.is_indoor then s6 + 20
            else if !pi_ && !e.is_indoor then s6 + 20 else s6
  if truthyTime e.time then s7 + 10 else s7

/-- The comparison underlying
`good_events.sort(key=lambda e: (-score_event(e), e["date"]))`:
ascending lexicographic order on the key tuple. -/
def eventLe (pi_ : Bool) (a b : MsgEvent) : Bool :=
  decide (score_event pi_ b < score_event pi_ a) ||
    (decide (score_event pi_ a = score_event pi_ b) && decide (a.date ≤ b.date))

/-- The sort step of `load_events`.  Python's `list.sort` is a stable sort by
the key tuple; `List.mergeSort` is stable for the same comparison. -/
def sortEvents (pi_ : Bool) (events : List MsgEvent) : List MsgEvent :=
  events.mergeSort (eventLe pi_)

end Msg

/-- The Condition derivation exactly as the spec words it (for the C3
refinement comparison): "`snow` if total 7-day snowfall ≥ a threshold or ≥2
distinct snow days; else `freezing` if average daily low ≤ a cold threshold;
else `rainy` if total precipitation ≥ a threshold; else `heat` if average
daily high ≥ a hot threshold; else `mixed` if ≥3 days carry an adverse
weather code; else `nice`" — with plain averages over the 7 days. -/
def Msg.conditionSpec (w : Msg.Weather) : String :=
  if Msg.SNOW_THRESHOLD ≤ Msg.ratSum w.snowfall_sum ∨
      2 ≤ (w.snowfall_sum.filter (fun s => 0 < s)).length then "snow"
  else if Msg.ratSum w.temperature_2m_min / w.temperature_2m_min.length ≤
      Msg.FREEZING_THRESHOLD then "freezing"
  else if Msg.RAIN_THRESHOLD ≤ Msg.ratSum w.precipitation_sum then "rainy"
  else if Msg.HEAT_THRESHOLD ≤ Msg.ratSum w.temperature_2m_max / w.temperature_2m_max.length
    then "heat"
  else if 3 ≤ (w.weather_code.filter (fun c => (71 ≤ c ∧ c ≤ 77) ∨ (51 ≤ c ∧ c ≤ 67))).length
    then "mixed"
  else "nice"

/-! ## Theorems -/

/-- C1 counterexample.  On a date-text no pattern matches ("live music
night"), `_parse_date_time` returns the current datetime itself — here noon of
Feb 1 2026, a valid calendar date — rather than an unparsed result distinct
from every valid date.  (The caller's past-date filter then keeps the record,
since noon is after today's midnight.) -/
theorem C1_counterexample_returns_current_date :
    (BCal.parse_date_time ⟨2026, 2, 1, 12, 0, 0⟩ "live music night").1 = ⟨2026, 2, 1, 12, 0, 0⟩ ∧
    validYMD 2026 2 1 = true := by
  decide

/-- C1 (amended): when every pattern in the ordered date-format list fails,
`_parse_date_time` returns the current datetime `now` (paired with whatever
time string was extracted); there is no unparsed sentinel distinct from valid
dates. -/
theorem C1_unparsed_returns_now (now : DateTime) (s : String)
    (h : BCal.bcParse (pyStrip (BCal.removeTimes s.toList)) = none) :
    (BCal.parse_date_time now s).1 = now := by
  unfold BCal.parse_date_time
  simp only [h]

/-- C1 witness: the amended theorem applied to the unparsable text. -/
theorem C1_witness :
    BCal.bcParse (pyStrip (BCal.removeTimes ("live music night" : String).toList)) = none ∧
    (BCal.parse_date_time ⟨2026, 6, 15, 9, 30, 0⟩ "live music night").1 = ⟨2026, 6, 15, 9, 30, 0⟩ :=
  ⟨by decide, C1_unparsed_returns_now ⟨2026, 6, 15, 9, 30, 0⟩ "live music night" (by decide)⟩

/-- C7 counterexample.  At noon on Feb 1 2026, the year-less date-text
"Sunday, Feb 01" denotes the current-year date Feb 1 2026 — today, hence not
"already in the past" — yet `_parse_date_time` rolls it forward to 2027,
because the code compares the parsed date at midnight against the full
current datetime. -/
theorem C7_counterexample_today_rolls_forward :
    (BCal.parse_date_time ⟨2026, 2, 1, 12, 0, 0⟩ "Sunday, Feb 01").1 = ⟨2027, 2, 1, 0, 0, 0⟩ := by
  decide

/-- C7 (amended): a date-text parsed under a no-year pattern (sentinel year
1900) gets the current year, keeping month and day; and the year is rolled
forward exactly one year precisely when midnight of the current-year date is
strictly before the current datetime (so a date equal to today also rolls,
except at exactly midnight). -/
theorem C7_no_year_roll (now : DateTime) (s : String) (p : DateTime)
    (h : BCal.bcParse (pyStrip (BCal.removeTimes s.toList)) = some p)
    (hy : p.year = 1900) :
    (BCal.parse_date_time now s).1.month = p.month ∧
    (BCal.parse_date_time now s).1.day = p.day ∧
    ((BCal.parse_date_time now s).1.year = now.year ∨
      (BCal.parse_date_time now s).1.year = now.year + 1) ∧
    ((BCal.parse_date_time now s).1.year = now.year + 1 ↔
      DateTime.lt {p with year := now.year} now = true) := by
  unfold BCal.parse_date_time
  simp only [h, hy, if_pos]
  by_cases hlt : DateTime.lt {p with year := now.year} now = true
  · simp [hlt]
  · simp [hlt]

/-- C7 witness: the amended theorem applied to "Sunday, Feb 01" at a mid-June
current datetime (the February date is past, so it rolls to the next year). -/
theorem C7_witness :
    BCal.bcParse (pyStrip (BCal.removeTimes ("Sunday, Feb 01" : String).toList)) =
      some ⟨1900, 2, 1, 0, 0, 0⟩ ∧
    ((BCal.parse_date_time ⟨2026, 6, 15, 9, 30, 0⟩ "Sunday, Feb 01").1.month = 2 ∧
     (BCal.parse_date_time ⟨2026, 6, 15, 9, 30, 0⟩ "Sunday, Feb 01").1.day = 1 ∧
     ((BCal.parse_date_time ⟨2026, 6, 15, 9, 30, 0⟩ "Sunday, Feb 01").1.year = 2026 ∨
       (BCal.parse_date_time ⟨2026, 6, 15, 9, 30, 0⟩ "Sunday, Feb 01").1.year = 2026 + 1) ∧
     ((BCal.parse_date_time ⟨2026, 6, 15, 9, 30, 0⟩ "Sunday, Feb 01").1.year = 2026 + 1 ↔
       DateTime.lt ⟨2026, 2, 1, 0, 0, 0⟩ ⟨2026, 6, 15, 9, 30, 0⟩ = true)) :=
  ⟨by decide, C7_no_year_roll ⟨2026, 6, 15, 9, 30, 0⟩ "Sunday, Feb 01" ⟨1900, 2, 1, 0, 0, 0⟩
    (by decide) rfl⟩

/-- Membership in the modelled `set.add`. -/
theorem mem_addUrl {urls : List String} {u v : String} :
    v ∈ NotionDb.addUrl urls u ↔ v ∈ urls ∨ v = u := by
  unfold NotionDb.addUrl
  split
  · rename_i hu
    constructor
    · exact Or.inl
    · rintro (hv | rfl)
      · exact hv
      · exact hu
  · simp

/-- Characterisation of the fold inside `get_existing_urls`. -/
theorem mem_get_existing_urls_aux (store : List Event) (acc : List String) (u : String) :
    u ∈ store.foldl (fun acc e => if e.url = "" then acc else NotionDb.addUrl acc e.url) acc ↔
      u ∈ acc ∨ (u ≠ "" ∧ ∃ e ∈ store, e.url = u) := by
  induction store generalizing acc with
  | nil => simp
  | cons e es ih =>
    simp only [List.foldl_cons]
    rw [ih]
    by_cases he : e.url = ""
    · rw [if_pos he]
      constructor
      · rintro (h | ⟨hu, x, hx, hxu⟩)
        · exact Or.inl h
        · exact Or.inr ⟨hu, x, List.mem_cons_of_mem _ hx, hxu⟩
      · rintro (h | ⟨hu, x, hx, hxu⟩)
        · exact Or.inl h
        · rcases List.mem_cons.mp hx with rfl | hx'
          · exact absurd (hxu ▸ he) hu
          · exact Or.inr ⟨hu, x, hx', hxu⟩
    · rw [if_neg he, mem_addUrl]
      constructor
      · rintro (⟨h | rfl⟩ | ⟨hu, x, hx, hxu⟩)
        · exact Or.inl h
        · exact Or.inr ⟨he, e, List.mem_cons_self _ _, rfl⟩
        · exact Or.inr ⟨hu, x, List.mem_cons_of_mem _ hx, hxu⟩
      · rintro (h | ⟨hu, x, hx, hxu⟩)
        · exact Or.inl (Or.inl h)
        · rcases List.mem_cons.mp hx with rfl | hx'
          · exact Or.inl (Or.inr hxu.symm)
          · exact Or.inr ⟨hu, x, hx', hxu⟩

/-- `get_existing_urls` returns exactly the non-empty urls of the store. -/
theorem mem_get_existing_urls (store : List Event) (u : String) :
    u ∈ NotionDb.get_existing_urls store ↔ u ≠ "" ∧ ∃ e ∈ store, e.url = u := by
  unfold NotionDb.get_existing_urls
  rw [mem_get_existing_urls_aux]
  simp

/-- One `add_events` iteration preserves the dedup invariant: urls of stored
events are pairwise distinct and every stored url is in the seen set. -/
theorem add_events_step_inv (ok : Event → Bool) (st : NotionDb.AddState) (e : Event)
    (h1 : st.store.Pairwise (fun a b => a.url ≠ b.url))
    (h2 : ∀ x ∈ st.store, x.url ∈ st.existing_urls) :
    (NotionDb.add_events_step ok st e).store.Pairwise (fun a b => a.url ≠ b.url) ∧
      ∀ x ∈ (NotionDb.add_events_step ok st e).store,
        x.url ∈ (NotionDb.add_events_step ok st e).existing_urls := by
  unfold NotionDb.add_events_step
  split
  · exact ⟨h1, h2⟩
  · rename_i hnot
    split
    · constructor
      · rw [List.pairwise_append]
        refine ⟨h1, List.pairwise_singleton _ _, ?_⟩
        intro a ha b hb
        rw [List.mem_singleton] at hb
        subst hb
        intro hab
        exact hnot (hab ▸ h2 a ha)
      · intro x hx
        rcases List.mem_append.mp hx with hx' | hx'
        · exact mem_addUrl.mpr (Or.inl (h2 x hx'))
        · rw [List.mem_singleton] at hx'
          subst hx'
          exact mem_addUrl.mpr (Or.inr rfl)
    · exact ⟨h1, h2⟩

/-- The invariant holds after the whole `add_events` loop. -/
theorem add_events_foldl_inv (ok : Event → Bool) (events : List Event)
    (st : NotionDb.AddState)
    (h1 : st.store.Pairwise (fun a b => a.url ≠ b.url))
    (h2 : ∀ x ∈ st.store, x.url ∈ st.existing_urls) :
    (events.foldl (NotionDb.add_events_step ok) st).store.Pairwise (fun a b => a.url ≠ b.url) := by
  induction events generalizing st with
  | nil => exact h1
  | cons e es ih =>
    have h := add_events_step_inv ok st e h1 h2
    exact ih _ h.1 h.2

/-- C2 counterexample.  An event with an empty url is admissible, but
`get_existing_urls` skips falsy url values, so a second run seeded from the
store's existing url set admits a second event with the same (empty) identity
key: the resulting stored set holds two events with equal urls. -/
theorem C2_counterexample_empty_url_across_runs :
    ¬ (NotionDb.add_events (fun _ => true)
        (NotionDb.add_events (fun _ => true) [] true
          [{name := "a", date := ⟨2026, 5, 1, 0, 0, 0⟩, url := "", source := "s"}]).store
        true
        [{name := "b", date := ⟨2026, 5, 2, 0, 0, 0⟩, url := "", source := "s"}]).store.Pairwise
      (fun a b => a.url ≠ b.url) := by
  decide

/-- C2 (amended): seeded from a store whose events all carry non-empty,
pairwise-distinct urls, `add_events` keeps stored urls pairwise distinct
(at most one stored event per identity key, compared verbatim); moreover a
candidate whose url is in the seen set is rejected with only the skipped
counter incremented, and an admitted candidate's url enters the seen set.
(Events with empty urls break the seeding across runs, as the
counterexample shows.) -/
theorem C2_dedup_invariant :
    (∀ (ok : Event → Bool) (store events : List Event),
      store.Pairwise (fun a b => a.url ≠ b.url) →
      (∀ e ∈ store, e.url ≠ "") →
      (NotionDb.add_events ok store true events).store.Pairwise (fun a b => a.url ≠ b.url)) ∧
    (∀ (ok : Event → Bool) (st : NotionDb.AddState) (e : Event),
      e.url ∈ st.existing_urls →
      NotionDb.add_events_step ok st e = {st with skipped := st.skipped + 1}) ∧
    (∀ (ok : Event → Bool) (st : NotionDb.AddState) (e : Event),
      e.url ∉ st.existing_urls → ok e = true →
      e.url ∈ (NotionDb.add_events_step ok st e).existing_urls) := by
  refine ⟨?_, ?_, ?_⟩
  · intro ok store events h1 h2
    unfold NotionDb.add_events
    exact add_events_foldl_inv ok events _ h1
      (fun x hx => (mem_get_existing_urls store x.url).mpr ⟨h2 x hx, x, hx, rfl⟩)
  · intro ok st e he
    unfold NotionDb.add_events_step
    rw [if_pos he]
  · intro ok st e he hok
    unfold NotionDb.add_events_step
    rw [if_neg he, if_pos hok]
    exact mem_addUrl.mpr (Or.inr rfl)

/-- C2 witness: the amended theorem applied to a two-run scenario with
distinct non-empty urls, one repeated within the second run. -/
theorem C2_witness :
    ([({name := "a", date := ⟨2026, 5, 1, 0, 0, 0⟩, url := "u1", source := "s"} : Event)].Pairwise
        (fun a b => a.url ≠ b.url) ∧
      (∀ e ∈ [({name := "a", date := ⟨2026, 5, 1, 0, 0, 0⟩, url := "u1", source := "s"} : Event)],
        e.url ≠ "") ∧
      (NotionDb.add_events (fun _ => true)
        [{name := "a", date := ⟨2026, 5, 1, 0, 0, 0⟩, url := "u1", source := "s"}] true
        [{name := "b", date := ⟨2026, 5, 2, 0, 0, 0⟩, url := "u2", source := "s"},
         {name := "c", date := ⟨2026, 5, 3, 0, 0, 0⟩, url := "u2", source := "s"},
         {name := "d", date := ⟨2026, 5, 4, 0, 0, 0⟩, url := "u1", source := "s"}]).store.Pairwise
        (fun a b => a.url ≠ b.url)) ∧
    ("u1" ∈ (⟨[], ["u1"], 0, 0, 0⟩ : NotionDb.AddState).existing_urls ∧
      NotionDb.add_events_step (fun _ => true) ⟨[], ["u1"], 0, 0, 0⟩
          {name := "d", date := ⟨2026, 5, 4, 0, 0, 0⟩, url := "u1", source := "s"} =
        {(⟨[], ["u1"], 0, 0, 0⟩ : NotionDb.AddState) with skipped := 0 + 1}) ∧
    ("u2" ∉ (⟨[], ["u1"], 0, 0, 0⟩ : NotionDb.AddState).existing_urls ∧
      "u2" ∈ (NotionDb.add_events_step (fun _ => true) ⟨[], ["u1"], 0, 0, 0⟩
        {name := "b", date := ⟨2026, 5, 2, 0, 0, 0⟩, url := "u2", source := "s"}).existing_urls) :=
  ⟨⟨by decide, by decide,
      C2_dedup_invariant.1 (fun _ => true) _ _ (by decide) (by decide)⟩,
    ⟨by decide,
      C2_dedup_invariant.2.1 (fun _ => true) ⟨[], ["u1"], 0, 0, 0⟩ _ (by decide)⟩,
    ⟨by decide,
      C2_dedup_invariant.2.2 (fun _ => true) ⟨[], ["u1"], 0, 0, 0⟩ _ (by decide) rfl⟩⟩

/-- C10: when the page-create call for an admitted candidate fails, only the
error counter changes — the seen-url set, the store and the other counters
are untouched — so a later candidate with the same url is attempted again
(it is admitted, not counted as skipped) and the batch continues. -/
theorem C10_create_failure_leaves_seen_set (ok : Event → Bool) (st : NotionDb.AddState)
    (e1 e2 : Event)
    (hurl : e2.url = e1.url)
    (hseen : e1.url ∉ st.existing_urls)
    (h1 : ok e1 = false) (h2 : ok e2 = true) :
    NotionDb.add_events_step ok st e1 = {st with errors := st.errors + 1} ∧
    ([e1, e2].foldl (NotionDb.add_events_step ok) st).store = st.store ++ [e2] ∧
    ([e1, e2].foldl (NotionDb.add_events_step ok) st).added = st.added + 1 ∧
    ([e1, e2].foldl (NotionDb.add_events_step ok) st).errors = st.errors + 1 ∧
    ([e1, e2].foldl (NotionDb.add_events_step ok) st).skipped = st.skipped := by
  have hstep : NotionDb.add_events_step ok st e1 = {st with errors := st.errors + 1} := by
    unfold NotionDb.add_events_step
    rw [if_neg hseen, if_neg (by rw [h1]; exact Bool.false_ne_true)]
  refine ⟨hstep, ?_, ?_, ?_, ?_⟩ <;>
    · simp only [List.foldl_cons, List.foldl_nil, hstep]
      unfold NotionDb.add_events_step
      rw [hurl, if_neg hseen, if_pos h2]

/-- C10 witness: a failing create followed by a successful retry of the same
url within one batch. -/
theorem C10_witness :
    (({name := "b", date := ⟨2026, 5, 2, 0, 0, 0⟩, url := "u", source := "s"} : Event).url =
        ({name := "a", date := ⟨2026, 5, 1, 0, 0, 0⟩, url := "u", source := "s"} : Event).url) ∧
    (({name := "a", date := ⟨2026, 5, 1, 0, 0, 0⟩, url := "u", source := "s"} : Event).url ∉
        (⟨[], [], 0, 0, 0⟩ : NotionDb.AddState).existing_urls) ∧
    ([({name := "a", date := ⟨2026, 5, 1, 0, 0, 0⟩, url := "u", source := "s"} : Event),
      {name := "b", date := ⟨2026, 5, 2, 0, 0, 0⟩, url := "u", source := "s"}].foldl
        (NotionDb.add_events_step (fun e => e.name == "b")) ⟨[], [], 0, 0, 0⟩).store =
      [] ++ [{name := "b", date := ⟨2026, 5, 2, 0, 0, 0⟩, url := "u", source := "s"}] :=
  ⟨rfl, by decide,
    (C10_create_failure_leaves_seen_set (fun e => e.name == "b") ⟨[], [], 0, 0, 0⟩
      {name := "a", date := ⟨2026, 5, 1, 0, 0, 0⟩, url := "u", source := "s"}
      {name := "b", date := ⟨2026, 5, 2, 0, 0, 0⟩, url := "u", source := "s"}
      rfl (by decide) (by decide) (by decide)).2.1⟩

/-- C8: for a page returned by the before-today query, the cleanup pass keeps
it (ongoing, archive list untouched) exactly when it carries an end date that
is on or after today; otherwise — end date in the past, or no end date — the
page is archived.  A multi-day event whose end date is tomorrow satisfies
`today ≤ end`, so it is kept, never archived. -/
theorem C8_cleanup_keeps_ongoing :
    (∀ (today : PDate) (ok : NotionDb.NPage → Bool) (st : NotionDb.CleanupState)
        (p : NotionDb.NPage) (s : String) (d : PDate),
      p.endStr = some s → NotionDb.parseISO s = some d → PDate.le today d = true →
      NotionDb.cleanup_step today ok st p = some {st with kept := st.kept + 1}) ∧
    (∀ (today : PDate) (ok : NotionDb.NPage → Bool) (st : NotionDb.CleanupState)
        (p : NotionDb.NPage) (s : String) (d : PDate),
      p.endStr = some s → NotionDb.parseISO s = some d → PDate.le today d = false →
      ok p = true →
      NotionDb.cleanup_step today ok st p =
        some {st with deleted := st.deleted + 1, archivedIds := st.archivedIds ++ [p.id]}) ∧
    (∀ (today : PDate) (ok : NotionDb.NPage → Bool) (st : NotionDb.CleanupState)
        (p : NotionDb.NPage),
      p.endStr = none → ok p = true →
      NotionDb.cleanup_step today ok st p =
        some {st with deleted := st.deleted + 1, archivedIds := st.archivedIds ++ [p.id]}) := by
  refine ⟨?_, ?_, ?_⟩
  · intro today ok st p s d hs hd hle
    unfold NotionDb.cleanup_step
    rw [hs]
    simp only [hd, hle, if_true]
  · intro today ok st p s d hs hd hle hok
    unfold NotionDb.cleanup_step
    rw [hs]
    simp only [hd, hle, hok, if_true, Bool.false_eq_true, if_false]
  · intro today ok st p hn hok
    unfold NotionDb.cleanup_step
    rw [hn]
    simp only [hok, if_true]

/-- C8 witness: with today Feb 1 2026, a page whose end date string is
tomorrow ("2026-02-02") is kept by the cleanup step. -/
theorem C8_witness :
    (⟨"pg1", some "2026-02-02"⟩ : NotionDb.NPage).endStr = some "2026-02-02" ∧
    NotionDb.parseISO "2026-02-02" = some ⟨2026, 2, 2⟩ ∧
    PDate.le ⟨2026, 2, 1⟩ ⟨2026, 2, 2⟩ = true ∧
    NotionDb.cleanup_step ⟨2026, 2, 1⟩ (fun _ => true) ⟨3, 4, 5, ["x"]⟩ ⟨"pg1", some "2026-02-02"⟩ =
      some {(⟨3, 4, 5, ["x"]⟩ : NotionDb.CleanupState) with kept := 4 + 1} :=
  ⟨rfl, by decide, by decide,
    C8_cleanup_keeps_ongoing.1 ⟨2026, 2, 1⟩ (fun _ => true) ⟨3, 4, 5, ["x"]⟩
      ⟨"pg1", some "2026-02-02"⟩ "2026-02-02" ⟨2026, 2, 2⟩ rfl (by decide) (by decide)⟩


/-- Every coordinate in the known-venue table is nonzero (truthy). -/
theorem known_venues_nonzero :
    ∀ v ∈ Geo.KNOWN_VENUES, v.2.1 ≠ 0 ∧ v.2.2 ≠ 0 := by
  intro v hv
  fin_cases hv <;> exact ⟨by norm_num, by norm_num⟩

/-- A venue-table hit yields nonzero coordinates. -/
theorem venueLookup_nonzero (ll : List Char) (la lo : Rat)
    (h : Geo.venueLookup ll = some (la, lo)) : la ≠ 0 ∧ lo ≠ 0 := by
  unfold Geo.venueLookup at h
  obtain ⟨v, hv, heq⟩ := List.exists_of_findSome?_eq_some h
  by_cases hc : containsSub v.1.toList ll = true
  · rw [if_pos hc] at heq
    injection heq with heq'
    have h1 : v.2.1 = la := congrArg Prod.fst heq'
    have h2 : v.2.2 = lo := congrArg Prod.snd heq'
    exact h1 ▸ h2 ▸ known_venues_nonzero v hv
  · rw [if_neg hc] at heq
    exact absurd heq (by simp)

/-- Any location text containing "boston" (in particular the literal
substitute "Boston", lowered) hits the first venue-table entry. -/
theorem venueLookup_boston_hit (ll : List Char)
    (h : containsSub ("boston" : String).toList ll = true) :
    Geo.venueLookup ll = some (42.3601, -71.0589) := by
  unfold Geo.venueLookup Geo.KNOWN_VENUES
  rw [List.findSome?_cons_of_isSome _ (by rw [if_pos h]; rfl)]
  rw [if_pos h]

/-- With a failing external geocoder and non-empty text, `geocode_location`
always produces two nonzero coordinates (venue table or Boston default). -/
theorem geocode_location_nonzero (ext : String → Option (Rat × Rat)) (loc : String)
    (hext : ∀ s, ext s = none) (hloc : loc ≠ "") :
    ∃ la lo, Geo.geocode_location ext loc = (some la, some lo) ∧ la ≠ 0 ∧ lo ≠ 0 := by
  unfold Geo.geocode_location
  rw [if_neg hloc]
  cases h : Geo.venueLookup (lowerChars loc.toList) with
  | some c =>
    obtain ⟨la, lo⟩ := c
    exact ⟨la, lo, rfl, venueLookup_nonzero _ la lo h⟩
  | none =>
    rw [hext loc]
    exact ⟨42.3601, -71.0589, rfl, by norm_num, by norm_num⟩

/-- The `location or address or "Boston"` choice is never the empty string. -/
theorem locChoice_ne_empty (a b : Option String) :
    ((Geo.truthyStr a).getD ((Geo.truthyStr b).getD "Boston")) ≠ "" := by
  have hb : (Geo.truthyStr b).getD "Boston" ≠ "" := by
    cases b with
    | none => simp [Geo.truthyStr]
    | some s =>
      unfold Geo.truthyStr
      by_cases hs : s = ""
      · simp [hs]
      · simp [hs]
  cases a with
  | none => simpa [Geo.truthyStr]
  | some s =>
    unfold Geo.truthyStr
    by_cases hs : s = ""
    · simpa [hs]
    · simp [hs]

/-- C9: (i) on a non-empty location that misses the venue table, a failing
external call makes `geocode_location` return exactly the Boston city-center
coordinate `(42.3601, -71.0589)`; (ii) an event with missing coordinates and
empty (or missing) location and address text is enriched with exactly that
coordinate — the pass substitutes "Boston", which the venue table resolves to
the city center, so the empty-text branch of `geocode_location` (which by
itself returns no coordinates) is never exercised by the enrichment pass;
(iii) with a failing external call, every event coming out of the enrichment
pass carries truthy (non-null, nonzero) latitude and longitude. -/
theorem C9_geocode_fallback :
    (∀ (ext : String → Option (Rat × Rat)) (loc : String),
      loc ≠ "" → Geo.venueLookup (lowerChars loc.toList) = none → ext loc = none →
      Geo.geocode_location ext loc = (some 42.3601, some (-71.0589))) ∧
    (∀ (ext : String → Option (Rat × Rat)) (e : Geo.GEvent),
      (!Geo.truthyRat e.latitude || !Geo.truthyRat e.longitude) = true →
      Geo.truthyStr e.location = none → Geo.truthyStr e.address = none →
      Geo.geocode_event ext e = {e with latitude := some 42.3601, longitude := some (-71.0589)}) ∧
    (∀ (ext : String → Option (Rat × Rat)) (events : List Geo.GEvent),
      (∀ s, ext s = none) →
      ∀ e ∈ Geo.geocode_events ext events,
        Geo.truthyRat e.latitude = true ∧ Geo.truthyRat e.longitude = true) := by
  refine ⟨?_, ?_, ?_⟩
  · intro ext loc hloc hvenue hext
    unfold Geo.geocode_location
    rw [if_neg hloc]
    simp only [hvenue, hext]
  · intro ext e hmiss hl ha
    have hloc : ((Geo.truthyStr e.location).getD ((Geo.truthyStr e.address).getD "Boston")) =
        "Boston" := by
      rw [hl, ha]
      rfl
    have hgl : Geo.geocode_location ext "Boston" = (some 42.3601, some (-71.0589)) := by
      unfold Geo.geocode_location
      rw [if_neg (by decide), venueLookup_boston_hit _ (by decide)]
    unfold Geo.geocode_event
    rw [if_pos hmiss]
    simp only [hloc, hgl]
    rw [if_pos (by constructor <;> norm_num)]
  · intro ext events hext e he
    obtain ⟨x, _, rfl⟩ := List.mem_map.mp he
    unfold Geo.geocode_event
    by_cases hmiss : (!Geo.truthyRat x.latitude || !Geo.truthyRat x.longitude) = true
    · rw [if_pos hmiss]
      obtain ⟨la, lo, heq, hla, hlo⟩ :=
        geocode_location_nonzero ext _ hext (locChoice_ne_empty x.location x.address)
      simp only [heq]
      rw [if_pos ⟨hla, hlo⟩]
      simp [Geo.truthyRat, hla, hlo]
    · rw [if_neg hmiss]
      rw [Bool.or_eq_true, not_or, Bool.not_eq_true, Bool.not_eq_true] at hmiss
      exact ⟨Bool.not_eq_false' .. ▸ hmiss.1, Bool.not_eq_false' .. ▸ hmiss.2⟩

/-- C9 witness: a failing external geocoder, an event with no usable location
text and one with an unknown venue string; the first conjunct at a venue-miss
string, the second at the no-text event, the third over a mixed batch. -/
theorem C9_witness :
    (Geo.venueLookup (lowerChars ("Zakim Cloud Deck" : String).toList) = none ∧
      Geo.geocode_location (fun _ => none) "Zakim Cloud Deck" =
        (some 42.3601, some (-71.0589))) ∧
    (Geo.geocode_event (fun _ => none) ⟨"mystery meetup", none, none, some "", none⟩ =
      {(⟨"mystery meetup", none, none, some "", none⟩ : Geo.GEvent) with
        latitude := some 42.3601, longitude := some (-71.0589)}) ∧
    (∀ e ∈ Geo.geocode_events (fun _ => none)
        [⟨"mystery meetup", none, none, some "", none⟩,
         ⟨"cloud talk", none, none, some "Zakim Cloud Deck", none⟩,
         ⟨"mapped", some 1, some 2, none, none⟩],
      Geo.truthyRat e.latitude = true ∧ Geo.truthyRat e.longitude = true) :=
  ⟨⟨by decide,
      C9_geocode_fallback.1 (fun _ => none) "Zakim Cloud Deck" (by decide) (by decide) rfl⟩,
    C9_geocode_fallback.2.1 (fun _ => none) ⟨"mystery meetup", none, none, some "", none⟩
      (by decide) (by decide) (by decide),
    C9_geocode_fallback.2.2 (fun _ => none) _ (fun _ => rfl)⟩

/-- The final fallback of `_categorize` can never produce an empty list. -/
theorem ifEmptyCommunity (l : List String) : (if l = [] then ["Community"] else l) ≠ [] := by
  by_cases h : l = []
  · rw [if_pos h]
    simp
  · rw [if_neg h]
    exact h

/-- The category-map fold adds nothing when no category keyword matches. -/
theorem foldl_no_match (text : List Char) (L : List (String × List String)) (acc : List String)
    (h : ∀ p ∈ L, BCal.anyKeyword p.2 text = false) :
    L.foldl
      (fun cats p =>
        if BCal.anyKeyword p.2 text then (if p.1 ∈ cats then cats else cats ++ [p.1]) else cats)
      acc = acc := by
  induction L generalizing acc with
  | nil => rfl
  | cons p ps ih =>
    rw [List.foldl_cons, if_neg (by rw [h p (List.mem_cons_self p ps)]; exact Bool.false_ne_true)]
    exact ih _ (fun q hq => h q (List.mem_cons_of_mem p hq))

/-- Turn a pointwise no-match hypothesis into `anyKeyword … = false`. -/
theorem anyKeyword_eq_false (kws : List String) (text : List Char)
    (h : ∀ kw ∈ kws, containsSub kw.toList text = false) :
    BCal.anyKeyword kws text = false := by
  unfold BCal.anyKeyword
  rw [List.any_eq_false]
  intro kw hkw
  rw [h kw hkw]
  exact Bool.false_ne_true

/-- C6: `_categorize` is total — its output list is never empty — and when no
keyword from the two ethnicity lists or the category keyword map occurs as a
substring of the lowercased `name + " " + description` text, the output is
exactly the singleton `["Community"]`. -/
theorem C6_categorizer_totality :
    (∀ (name : String) (description : Option String),
      BCal.categorize name description ≠ []) ∧
    (∀ (name : String) (description : Option String),
      (∀ kw ∈ SOUTH_ASIAN_KEYWORDS,
        containsSub kw.toList
          (lowerChars (name.toList ++ ' ' :: (description.getD "").toList)) = false) →
      (∀ kw ∈ MIDDLE_EASTERN_KEYWORDS,
        containsSub kw.toList
          (lowerChars (name.toList ++ ' ' :: (description.getD "").toList)) = false) →
      (∀ p ∈ CATEGORY_KEYWORDS, ∀ kw ∈ p.2,
        containsSub kw.toList
          (lowerChars (name.toList ++ ' ' :: (description.getD "").toList)) = false) →
      BCal.categorize name description = ["Community"]) := by
  constructor
  · intro name description
    unfold BCal.categorize
    exact ifEmptyCommunity _
  · intro name description h1 h2 h3
    unfold BCal.categorize
    simp only [anyKeyword_eq_false _ _ h1, anyKeyword_eq_false _ _ h2, Bool.false_eq_true,
      if_false]
    rw [foldl_no_match _ _ _ (fun p hp => anyKeyword_eq_false _ _ (h3 p hp))]
    rfl

/-- C6 witness: the categorizer on text matching no keyword at all. -/
theorem C6_witness :
    BCal.categorize "zzz" none ≠ [] ∧
    (∀ kw ∈ SOUTH_ASIAN_KEYWORDS,
      containsSub kw.toList
        (lowerChars (("zzz" : String).toList ++ ' ' :: (("" : String)).toList)) = false) ∧
    BCal.categorize "zzz" none = ["Community"] :=
  ⟨C6_categorizer_totality.1 "zzz" none, by decide,
    C6_categorizer_totality.2 "zzz" none (by decide) (by decide) (by decide)⟩

/-- A conditional increment equals adding an indicator. -/
theorem ite_add_shift (c : Prop) [Decidable c] (a k : Nat) :
    (if c then a + k else a) = a + (if c then k else 0) := by
  by_cases h : c <;> simp [h]

/-- The `prefer_indoor` membership test, spelled out. -/
theorem prefer_indoor_iff (cond : String) :
    Msg.prefer_indoor cond = true ↔
      (cond = "snow" ∨ cond = "freezing" ∨ cond = "rainy" ∨ cond = "heat" ∨ cond = "mixed") := by
  unfold Msg.prefer_indoor
  simp only [List.mem_cons, List.mem_singleton, List.not_mem_nil, or_false, decide_eq_true_eq]
  constructor
  · rintro (h | h | h | h | h) <;> simp [h]
  · rintro (h | h | h | h | h) <;> simp [h]

/-- C4: with the event's `is_indoor` field set to its indoor/outdoor
classification (as `load_events` does before scoring), the curation score is
exactly the sum of the eight indicator bonuses of the claim: +100 South
Asian, +100 Middle Eastern, +50 Cultural Festival, +40 Music & Dance,
+40 Food & Markets, +30 "free" in the price text (case-insensitive),
+20 when the classification matches the condition's preference (indoor
preferred iff the condition is snow, freezing, rainy, heat or mixed), and
+10 for a truthy display time — and nothing else. -/
theorem C4_score_breakdown (cond : String) (e : Msg.MsgEvent)
    (hind : e.is_indoor = Msg.is_indoor_event e) :
    Msg.score_event (Msg.prefer_indoor cond) e =
      (if "South Asian" ∈ e.categories then 100 else 0) +
      (if "Middle Eastern" ∈ e.categories then 100 else 0) +
      (if "Cultural Festival" ∈ e.categories then 50 else 0) +
      (if "Music & Dance" ∈ e.categories then 40 else 0) +
      (if "Food & Markets" ∈ e.categories then 40 else 0) +
      (if containsSub ("free" : String).toList (lowerChars (e.price.getD "").toList)
        then 30 else 0) +
      (if ((cond = "snow" ∨ cond = "freezing" ∨ cond = "rainy" ∨ cond = "heat" ∨ cond = "mixed")
          ↔ Msg.is_indoor_event e = true) then 20 else 0) +
      (if Msg.truthyTime e.time then 10 else 0) := by
  have hmatch : (Msg.prefer_indoor cond = Msg.is_indoor_event e) ↔
      ((cond = "snow" ∨ cond = "freezing" ∨ cond = "rainy" ∨ cond = "heat" ∨ cond = "mixed")
        ↔ Msg.is_indoor_event e = true) := by
    rw [← prefer_indoor_iff]
    cases h1 : Msg.prefer_indoor cond <;> cases h2 : Msg.is_indoor_event e <;> simp
  unfold Msg.score_event
  rw [hind]
  simp only [ite_add_shift]
  rw [← if_congr hmatch rfl rfl]
  cases h1 : Msg.prefer_indoor cond <;> cases h2 : Msg.is_indoor_event e <;> simp [h1, h2]

/-- C4 witness: a South Asian, free, timed event under the snow condition. -/
theorem C4_witness :
    ({name := "mehfil night", date := "2026-02-03", time := some "7:00 PM", location := "",
      price := some "Free", categories := ["South Asian"], is_indoor := true} :
        Msg.MsgEvent).is_indoor =
      Msg.is_indoor_event
        {name := "mehfil night", date := "2026-02-03", time := some "7:00 PM", location := "",
         price := some "Free", categories := ["South Asian"], is_indoor := true} ∧
    Msg.score_event (Msg.prefer_indoor "snow")
      {name := "mehfil night", date := "2026-02-03", time := some "7:00 PM", location := "",
       price := some "Free", categories := ["South Asian"], is_indoor := true} = 160 :=
  ⟨by decide,
    (C4_score_breakdown "snow"
      {name := "mehfil night", date := "2026-02-03", time := some "7:00 PM", location := "",
       price := some "Free", categories := ["South Asian"], is_indoor := true}
      (by decide)).trans (by decide)⟩

/-- C3: on a 7-day snapshot (the temperature lists are nonempty, so the
empty-list defaults of the code never fire) the derived condition is exactly
the spec's priority cascade `snow / freezing / rainy / heat / mixed / nice`;
and the concrete forecast with 3cm of snowfall spread over 2 days (1.5cm,
1.5cm, then nothing) derives the condition "snow". -/
theorem C3_condition_cascade :
    (∀ w : Msg.Weather,
      w.temperature_2m_max.length = 7 → w.temperature_2m_min.length = 7 →
      (Msg.analyze_weather (some w)).1 = Msg.conditionSpec w) ∧
    (Msg.analyze_weather (some
      ⟨["2026-02-01", "2026-02-02", "2026-02-03", "2026-02-04", "2026-02-05", "2026-02-06",
        "2026-02-07"],
       [0, 1, 2, 0, 1, 2, 0], [-1, -2, 0, -1, 0, 0, 0], [0, 0, 0, 0, 0, 0, 0],
       [1.5, 1.5, 0, 0, 0, 0, 0], [71, 71, 0, 0, 0, 0, 0]⟩)).1 = "snow" ∧
    Msg.ratSum [1.5, 1.5, 0, 0, 0, 0, 0] = 3 ∧
    (([(1.5 : Rat), 1.5, 0, 0, 0, 0, 0].filter (fun s => 0 < s)).length = 2) := by
  refine ⟨?_, ?_, ?_, ?_⟩
  · intro w h1 h2
    have e1 : w.temperature_2m_max ≠ [] := by
      intro h
      rw [h] at h1
      simp at h1
    have e2 : w.temperature_2m_min ≠ [] := by
      intro h
      rw [h] at h2
      simp at h2
    have hr : (if w.precipitation_sum = [] then (0 : Rat) else Msg.ratSum w.precipitation_sum) =
        Msg.ratSum w.precipitation_sum := by
      by_cases h : w.precipitation_sum = [] <;> simp [h, Msg.ratSum]
    have hs : (if w.snowfall_sum = [] then (0 : Rat) else Msg.ratSum w.snowfall_sum) =
        Msg.ratSum w.snowfall_sum := by
      by_cases h : w.snowfall_sum = [] <;> simp [h, Msg.ratSum]
    simp only [Msg.analyze_weather, Msg.conditionSpec]
    rw [hr, hs, if_neg e1, if_neg e2]
    split_ifs <;> rfl
  · norm_num [Msg.analyze_weather, Msg.ratSum, Msg.SNOW_THRESHOLD]
  · norm_num [Msg.ratSum]
  · norm_num

/-- C3 witness: the cascade theorem applied to the 3cm / 2-day snapshot. -/
theorem C3_witness :
    ((["2026-02-01", "2026-02-02", "2026-02-03", "2026-02-04", "2026-02-05", "2026-02-06",
        "2026-02-07"] : List String).length = 7) ∧
    (Msg.analyze_weather (some
      ⟨["2026-02-01", "2026-02-02", "2026-02-03", "2026-02-04", "2026-02-05", "2026-02-06",
        "2026-02-07"],
       [0, 1, 2, 0, 1, 2, 0], [-1, -2, 0, -1, 0, 0, 0], [0, 0, 0, 0, 0, 0, 0],
       [1.5, 1.5, 0, 0, 0, 0, 0], [71, 71, 0, 0, 0, 0, 0]⟩)).1 =
      Msg.conditionSpec
        ⟨["2026-02-01", "2026-02-02", "2026-02-03", "2026-02-04", "2026-02-05", "2026-02-06",
          "2026-02-07"],
         [0, 1, 2, 0, 1, 2, 0], [-1, -2, 0, -1, 0, 0, 0], [0, 0, 0, 0, 0, 0, 0],
         [1.5, 1.5, 0, 0, 0, 0, 0], [71, 71, 0, 0, 0, 0, 0]⟩ :=
  ⟨rfl,
    C3_condition_cascade.1
      ⟨["2026-02-01", "2026-02-02", "2026-02-03", "2026-02-04", "2026-02-05", "2026-02-06",
        "2026-02-07"],
       [0, 1, 2, 0, 1, 2, 0], [-1, -2, 0, -1, 0, 0, 0], [0, 0, 0, 0, 0, 0, 0],
       [1.5, 1.5, 0, 0, 0, 0, 0], [71, 71, 0, 0, 0, 0, 0]⟩ rfl rfl⟩

/-- The sort comparison is transitive. -/
theorem eventLe_trans (pi_ : Bool) :
    ∀ a b c : Msg.MsgEvent,
      Msg.eventLe pi_ a b = true → Msg.eventLe pi_ b c = true → Msg.eventLe pi_ a c = true := by
  intro a b c hab hbc
  simp only [Msg.eventLe, Bool.or_eq_true, Bool.and_eq_true, decide_eq_true_eq] at hab hbc ⊢
  rcases hab with h1 | ⟨h1, h1d⟩ <;> rcases hbc with h2 | ⟨h2, h2d⟩
  · exact Or.inl (by omega)
  · exact Or.inl (by omega)
  · exact Or.inl (by omega)
  · exact Or.inr ⟨h1.trans h2, le_trans h1d h2d⟩

/-- The sort comparison is total. -/
theorem eventLe_total (pi_ : Bool) :
    ∀ a b : Msg.MsgEvent, (Msg.eventLe pi_ a b || Msg.eventLe pi_ b a) = true := by
  intro a b
  simp only [Msg.eventLe, Bool.or_eq_true, Bool.and_eq_true, decide_eq_true_eq]
  rcases Nat.lt_trichotomy (Msg.score_event pi_ a) (Msg.score_event pi_ b) with h | h | h
  · exact Or.inr (Or.inl h)
  · rcases le_total a.date b.date with hd | hd
    · exact Or.inl (Or.inr ⟨h, hd⟩)
    · exact Or.inr (Or.inr ⟨h.symm, hd⟩)
  · exact Or.inl (Or.inl h)

/-- C5: the sort step of `load_events` (stable sort by the key
`(-score, date)`) produces a list that is pairwise ordered by score
descending with ties broken by date ascending (the date strings are
`YYYY-MM-DD`, so their lexicographic order is chronological); and any pair
fully tied on score and date keeps its input order (stability, stated as:
a tied pair appearing in input order is still a sublist of the output). -/
theorem C5_sort_desc_stable :
    (∀ (pi_ : Bool) (l : List Msg.MsgEvent),
      (Msg.sortEvents pi_ l).Pairwise (fun a b =>
        Msg.score_event pi_ b < Msg.score_event pi_ a ∨
          (Msg.score_event pi_ a = Msg.score_event pi_ b ∧ a.date ≤ b.date))) ∧
    (∀ (pi_ : Bool) (l : List Msg.MsgEvent) (a b : Msg.MsgEvent),
      Msg.score_event pi_ a = Msg.score_event pi_ b → a.date = b.date →
      List.Sublist [a, b] l → List.Sublist [a, b] (Msg.sortEvents pi_ l)) := by
  constructor
  · intro pi_ l
    have hp := List.sorted_mergeSort (eventLe_trans pi_) (eventLe_total pi_) l
    refine hp.imp ?_
    intro a b h
    simpa only [Msg.eventLe, Bool.or_eq_true, Bool.and_eq_true, decide_eq_true_eq] using h
  · intro pi_ l a b hs hd hsub
    have hab : Msg.eventLe pi_ a b = true := by
      simp only [Msg.eventLe, Bool.or_eq_true, Bool.and_eq_true, decide_eq_true_eq]
      exact Or.inr ⟨hs, hd ▸ le_refl _⟩
    exact List.pair_sublist_mergeSort (eventLe_trans pi_) (eventLe_total pi_) hab hsub

/-- C5 witness: two fully tied events keep their input order through the
sort; the sorted-order conjunct applied to the same list. -/
theorem C5_witness :
    (Msg.score_event true
        {name := "a", date := "2026-02-03", time := none, location := "", price := none,
         categories := [], is_indoor := true} =
      Msg.score_event true
        {name := "b", date := "2026-02-03", time := none, location := "", price := none,
         categories := [], is_indoor := true}) ∧
    (List.Sublist
      [{name := "a", date := "2026-02-03", time := none, location := "", price := none,
        categories := [], is_indoor := true},
      {name := "b", date := "2026-02-03", time := none, location := "", price := none,
       categories := [], is_indoor := true}]
      (Msg.sortEvents true
        [{name := "a", date := "2026-02-03", time := none, location := "", price := none,
          categories := [], is_indoor := true},
         {name := "b", date := "2026-02-03", time := none, location := "", price := none,
          categories := [], is_indoor := true}])) ∧
    (Msg.sortEvents true
        [{name := "a", date := "2026-02-03", time := none, location := "", price := none,
          categories := [], is_indoor := true},
         {name := "b", date := "2026-02-03", time := none, location := "", price := none,
          categories := [], is_indoor := true}]).Pairwise (fun a b =>
      Msg.score_event true b < Msg.score_event true a ∨
        (Msg.score_event true a = Msg.score_event true b ∧ a.date ≤ b.date)) :=
  ⟨by decide,
    C5_sort_desc_stable.2 true _ _ _ (by decide) rfl (List.Sublist.refl _),
    C5_sort_desc_stable.1 true _⟩
